import Mathlib

/-!
Verification of the `deadigations` migration tool (Go) against its
natural-language specification.  The definitions below are a shallow
embedding of `src/deadigations.go`: pure computations become Lean
functions, the process-wide mutable state (`once`/`instance`,
`registeredMigrations`) becomes explicit state passing, the external
gormigrate engine becomes a function parameter whose invocations are
recorded as a list of `EngineCall` events, and the filesystem becomes an
explicit `FSState` record.
-/

set_option maxRecDepth 100000

namespace Deadigations

/-- The `Migration` descriptor struct (`deadigations.go`).  The Go
`Migrate`/`Rollback` fields hold opaque functions `func(tx *gorm.DB) error`;
they are embedded as values of an arbitrary type `α`. -/
structure Migration (α : Type) where
  ID : String
  Description : String
  Migrate : α
  Rollback : α
deriving DecidableEq

/-- The `gormigrate.Migration` struct as used by this tool: it carries no
`Description` field. -/
structure GormMigration (α : Type) where
  ID : String
  Migrate : α
  Rollback : α
deriving DecidableEq

/-- `RegisterMigration` (`deadigations.go` lines 29-36): builds a
`gormigrate.Migration` from the descriptor's `ID`, `Migrate` and `Rollback`
fields and appends it to the global `registeredMigrations` slice, which is
threaded here as an explicit argument and result. -/
def RegisterMigration {α : Type} (migration : Migration α)
    (registeredMigrations : List (GormMigration α)) : List (GormMigration α) :=
  registeredMigrations ++
    [{ ID := migration.ID, Migrate := migration.Migrate, Rollback := migration.Rollback }]

/-- The `gormigrate.Options` struct fields set by this tool. -/
structure GormigrateOptions where
  TableName : String
  IDColumnName : String
  IDColumnSize : Nat
  UseTransaction : Bool
  ValidateUnknownMigrations : Bool
deriving DecidableEq

/-- A database handle.  `gorm.Open(postgres.Open(dsn), ...)` is external to
this repository; the handle is determined by the connection string it was
opened with. -/
structure DB where
  dsn : String
deriving DecidableEq

/-- The successful result of `gorm.Open(postgres.Open(dsn), &gorm.Config{})`.
A connection failure is `log.Fatal` (process death) in the source and is not
reachable in any claim; the embedding models the successful open. -/
def gormOpen (dsn : String) : DB := { dsn := dsn }

/-- The `MigrationTool` struct (`deadigations.go` lines 38-41). -/
structure MigrationTool where
  db : DB
  options : GormigrateOptions
deriving DecidableEq

/-- `NewMigrationTool` (`deadigations.go` lines 44-64).  The globals
`once`/`instance` are threaded as an `Option MigrationTool` (`none` iff
`once.Do` has not yet run, in which case `instance` is still nil).  The
result is the returned tool, the new global state, and the list of
connection strings for which a database connection was opened during the
call. -/
def NewMigrationTool (dsn : String) (inst : Option MigrationTool) :
    MigrationTool × Option MigrationTool × List String :=
  match inst with
  | some i => (i, some i, [])
  | none =>
    let db := gormOpen dsn
    let i : MigrationTool :=
      { db := db
        options :=
          { TableName := "migrations"
            IDColumnName := "id"
            IDColumnSize := 255
            UseTransaction := true
            ValidateUnknownMigrations := false } }
    (i, some i, [dsn])

/-- The value built by `gormigrate.New(db, options, migrations)`. -/
structure Migrator (α : Type) where
  db : DB
  options : GormigrateOptions
  migrations : List (GormMigration α)
deriving DecidableEq

/-- `gormigrate.New` as used in `MigrateUp`/`MigrateDown`. -/
def gormigrateNew {α : Type} (db : DB) (options : GormigrateOptions)
    (migrations : List (GormMigration α)) : Migrator α :=
  { db := db, options := options, migrations := migrations }

/-- A call into the external gormigrate engine: `migrator.Migrate()` or
`migrator.RollbackLast()` on a constructed migrator. -/
inductive EngineCall (α : Type) where
  | migrate (m : Migrator α)
  | rollbackLast (m : Migrator α)
deriving DecidableEq

/-- An error value (`error` in Go). -/
structure Err where
  msg : String
deriving DecidableEq

/-- `MigrateUp` (`deadigations.go` lines 101-114).  The external engine is a
parameter `engine`; the result records the returned `error` (as
`Option Err`), the engine calls made, and the `log` lines printed. -/
def MigrateUp {α : Type} (m : MigrationTool)
    (registeredMigrations : List (GormMigration α))
    (engine : EngineCall α → Option Err) :
    Option Err × List (EngineCall α) × List String :=
  if registeredMigrations.length = 0 then
    (none, [], ["No migrations registered"])
  else
    let migrator := gormigrateNew m.db m.options registeredMigrations
    match engine (EngineCall.migrate migrator) with
    | some err => (some err, [EngineCall.migrate migrator], [])
    | none => (none, [EngineCall.migrate migrator], ["Migrations applied successfully!"])

/-- `MigrateDown` (`deadigations.go` lines 116-129). -/
def MigrateDown {α : Type} (m : MigrationTool)
    (registeredMigrations : List (GormMigration α))
    (engine : EngineCall α → Option Err) :
    Option Err × List (EngineCall α) × List String :=
  if registeredMigrations.length = 0 then
    (none, [], ["No migrations registered"])
  else
    let migrator := gormigrateNew m.db m.options registeredMigrations
    match engine (EngineCall.rollbackLast migrator) with
    | some err => (some err, [EngineCall.rollbackLast migrator], [])
    | none => (none, [EngineCall.rollbackLast migrator], ["Last migration rolled back successfully!"])

/-- Lexicographic comparison of character lists: Go's `<` on strings,
used by the spec's "sort ... by ID" on the string IDs. -/
def charListLt : List Char → List Char → Bool
  | [], [] => false
  | [], _ :: _ => true
  | _ :: _, [] => false
  | a :: as, b :: bs =>
    if a.val < b.val then true
    else if b.val < a.val then false
    else charListLt as bs

/-- Go's `<` on strings (byte/codepoint lexicographic). -/
def stringLt (a b : String) : Bool := charListLt a.data b.data

/-- Modelled from the spec: stable insertion of a migration into a list that
is already ascending by `ID` (the spec's "sort registry ascending by ID
(stable sort)"); the element is placed after all entries whose `ID` is not
greater, preserving registration order among ties. -/
def insertAscByID {α : Type} (m : GormMigration α) :
    List (GormMigration α) → List (GormMigration α)
  | [] => [m]
  | x :: xs => if stringLt m.ID x.ID then m :: x :: xs else x :: insertAscByID m xs

/-- Modelled from the spec: stable ascending sort of the registry by `ID`,
the behaviour the spec ascribes to `MigrateUp` before calling the engine. -/
def sortAscByID {α : Type} : List (GormMigration α) → List (GormMigration α)
  | [] => []
  | x :: xs => insertAscByID x (sortAscByID xs)

/-- Modelled from the spec: stable insertion for the descending-by-`ID`
order the spec ascribes to `MigrateDown`. -/
def insertDescByID {α : Type} (m : GormMigration α) :
    List (GormMigration α) → List (GormMigration α)
  | [] => [m]
  | x :: xs => if stringLt x.ID m.ID then m :: x :: xs else x :: insertDescByID m xs

/-- Modelled from the spec: stable descending sort of the registry by `ID`. -/
def sortDescByID {α : Type} : List (GormMigration α) → List (GormMigration α)
  | [] => []
  | x :: xs => insertDescByID x (sortDescByID xs)

/-- C8: `RegisterMigration` appends exactly one entry built from the
descriptor to the end of the registry, leaves every previously registered
entry unchanged and in place, and performs no duplicate-ID or non-empty-ID
check: it is a total function succeeding on every descriptor, including ones
with empty or duplicate `ID`s. -/
theorem registerMigration_appends {α : Type} (migration : Migration α)
    (registeredMigrations : List (GormMigration α)) :
    RegisterMigration migration registeredMigrations
      = registeredMigrations ++
          [{ ID := migration.ID, Migrate := migration.Migrate,
             Rollback := migration.Rollback }]
    ∧ (RegisterMigration migration registeredMigrations).length
      = registeredMigrations.length + 1
    ∧ (RegisterMigration migration registeredMigrations).take
        registeredMigrations.length = registeredMigrations := by
  refine ⟨rfl, by simp [RegisterMigration], ?_⟩
  exact List.take_left registeredMigrations
    [({ ID := migration.ID, Migrate := migration.Migrate,
        Rollback := migration.Rollback } : GormMigration α)]

/-- C9: the `Description` field of a descriptor is discarded by
`RegisterMigration`: two descriptors agreeing on `ID`, `Migrate` and
`Rollback` (but possibly differing in `Description`) produce identical
registry entries, and consequently `MigrateUp` and `MigrateDown` behave
identically on the two resulting registries — a two-run noninterference
statement. -/
theorem registerMigration_description_noninterference {α : Type}
    (m₁ m₂ : Migration α) (reg : List (GormMigration α))
    (tool : MigrationTool) (engine : EngineCall α → Option Err)
    (hID : m₁.ID = m₂.ID) (hMig : m₁.Migrate = m₂.Migrate)
    (hRb : m₁.Rollback = m₂.Rollback) :
    RegisterMigration m₁ reg = RegisterMigration m₂ reg
    ∧ MigrateUp tool (RegisterMigration m₁ reg) engine
      = MigrateUp tool (RegisterMigration m₂ reg) engine
    ∧ MigrateDown tool (RegisterMigration m₁ reg) engine
      = MigrateDown tool (RegisterMigration m₂ reg) engine := by
  have h : RegisterMigration m₁ reg = RegisterMigration m₂ reg := by
    simp [RegisterMigration, hID, hMig, hRb]
  exact ⟨h, by rw [h], by rw [h]⟩

/-- C9 witness: two concrete descriptors differing only in `Description`
register identically and drive the engine identically. -/
theorem registerMigration_description_noninterference_witness :
    (Migration.mk "20240803120000" "add users table" "migrate-action" "rollback-action").ID
      = (Migration.mk "20240803120000" "different words" "migrate-action" "rollback-action").ID
    ∧ (Migration.mk "20240803120000" "add users table" "migrate-action" "rollback-action").Migrate
      = (Migration.mk "20240803120000" "different words" "migrate-action" "rollback-action").Migrate
    ∧ (Migration.mk "20240803120000" "add users table" "migrate-action" "rollback-action").Rollback
      = (Migration.mk "20240803120000" "different words" "migrate-action" "rollback-action").Rollback
    ∧ (Migration.mk "20240803120000" "add users table" "migrate-action" "rollback-action").Description
      ≠ (Migration.mk "20240803120000" "different words" "migrate-action" "rollback-action").Description
    ∧ (RegisterMigration (Migration.mk "20240803120000" "add users table" "migrate-action" "rollback-action") []
        = RegisterMigration (Migration.mk "20240803120000" "different words" "migrate-action" "rollback-action") []
      ∧ MigrateUp (NewMigrationTool "host=localhost" none).1
          (RegisterMigration (Migration.mk "20240803120000" "add users table" "migrate-action" "rollback-action") [])
          (fun _ => none)
        = MigrateUp (NewMigrationTool "host=localhost" none).1
            (RegisterMigration (Migration.mk "20240803120000" "different words" "migrate-action" "rollback-action") [])
            (fun _ => none)
      ∧ MigrateDown (NewMigrationTool "host=localhost" none).1
          (RegisterMigration (Migration.mk "20240803120000" "add users table" "migrate-action" "rollback-action") [])
          (fun _ => none)
        = MigrateDown (NewMigrationTool "host=localhost" none).1
            (RegisterMigration (Migration.mk "20240803120000" "different words" "migrate-action" "rollback-action") [])
            (fun _ => none)) :=
  ⟨rfl, rfl, rfl, by decide,
    registerMigration_description_noninterference
      (Migration.mk "20240803120000" "add users table" "migrate-action" "rollback-action")
      (Migration.mk "20240803120000" "different words" "migrate-action" "rollback-action")
      [] (NewMigrationTool "host=localhost" none).1 (fun _ => none) rfl rfl rfl⟩

/-- C2: on the empty registry both `MigrateUp` and `MigrateDown` return
`nil` (no error), make no engine call (so the migrator is never constructed
or invoked), and only log "No migrations registered". -/
theorem migrate_empty_registry {α : Type} (m : MigrationTool)
    (engine : EngineCall α → Option Err) :
    MigrateUp m ([] : List (GormMigration α)) engine
      = (none, [], ["No migrations registered"])
    ∧ MigrateDown m ([] : List (GormMigration α)) engine
      = (none, [], ["No migrations registered"]) :=
  ⟨rfl, rfl⟩

/-- C3: `NewMigrationTool` is a singleton constructor.  Starting from the
uninitialised global state, the first call opens exactly one database
connection (with its own connection string) and fully determines the
instance; a second call with any other connection string returns the very
same instance, leaves the global state unchanged, and opens no connection,
so the second connection string has no effect. -/
theorem newMigrationTool_singleton (dsn₁ dsn₂ : String) :
    (NewMigrationTool dsn₂ (NewMigrationTool dsn₁ none).2.1).1
      = (NewMigrationTool dsn₁ none).1
    ∧ (NewMigrationTool dsn₂ (NewMigrationTool dsn₁ none).2.1).2.1
      = (NewMigrationTool dsn₁ none).2.1
    ∧ (NewMigrationTool dsn₁ none).2.2 = [dsn₁]
    ∧ (NewMigrationTool dsn₂ (NewMigrationTool dsn₁ none).2.1).2.2 = []
    ∧ (NewMigrationTool dsn₁ none).1
      = { db := gormOpen dsn₁
          options :=
            { TableName := "migrations", IDColumnName := "id", IDColumnSize := 255,
              UseTransaction := true, ValidateUnknownMigrations := false } } := by
  refine ⟨rfl, rfl, rfl, rfl, rfl⟩

/-- C1 counterexample: the registry registered with IDs `"3"`, `"1"`, `"2"`
(in that order) is handed to the engine in registration order `"3","1","2"`
by `MigrateUp` — not in the ascending order `"1","2","3"` demanded by the
claim — so `MigrateUp` does not sort before calling `Migrate`. -/
theorem migrateUp_sort_counterexample :
    ¬ ((MigrateUp (NewMigrationTool "host=localhost" none).1
          (RegisterMigration (Migration.mk "2" "" () ())
            (RegisterMigration (Migration.mk "1" "" () ())
              (RegisterMigration (Migration.mk "3" "" () ())
                ([] : List (GormMigration Unit)))))
          (fun _ => none)).2.1
        = [EngineCall.migrate
            (gormigrateNew (NewMigrationTool "host=localhost" none).1.db
              (NewMigrationTool "host=localhost" none).1.options
              (sortAscByID
                (RegisterMigration (Migration.mk "2" "" () ())
                  (RegisterMigration (Migration.mk "1" "" () ())
                    (RegisterMigration (Migration.mk "3" "" () ())
                      ([] : List (GormMigration Unit)))))))]) := by
  decide

/-- C1 (amended): `MigrateUp` and `MigrateDown` do not sort the registry.
On every non-empty registry, `MigrateUp` hands the full list to the engine's
`Migrate` and `MigrateDown` hands it to `RollbackLast`, both in registration
order, unchanged; in particular a registry registered with IDs
`["3","1","2"]` is passed in exactly that order in both directions. -/
theorem migrate_passes_registration_order {α : Type} (m : MigrationTool)
    (reg : List (GormMigration α)) (engine : EngineCall α → Option Err)
    (h : reg ≠ []) :
    (MigrateUp m reg engine).2.1
      = [EngineCall.migrate (gormigrateNew m.db m.options reg)]
    ∧ (MigrateDown m reg engine).2.1
      = [EngineCall.rollbackLast (gormigrateNew m.db m.options reg)] := by
  have hne : ¬ reg.length = 0 := by
    simp [List.length_eq_zero, h]
  constructor
  · cases h' : engine (EngineCall.migrate (gormigrateNew m.db m.options reg)) <;>
      simp [MigrateUp, hne, h']
  · cases h' : engine (EngineCall.rollbackLast (gormigrateNew m.db m.options reg)) <;>
      simp [MigrateDown, hne, h']

/-- C1 witness: the amended statement at the concrete registry with IDs
registered in order `"3","1","2"`. -/
theorem migrate_passes_registration_order_witness :
    (RegisterMigration (Migration.mk "2" "" () ())
        (RegisterMigration (Migration.mk "1" "" () ())
          (RegisterMigration (Migration.mk "3" "" () ())
            ([] : List (GormMigration Unit)))) ≠ [])
    ∧ ((MigrateUp (NewMigrationTool "host=localhost" none).1
          (RegisterMigration (Migration.mk "2" "" () ())
            (RegisterMigration (Migration.mk "1" "" () ())
              (RegisterMigration (Migration.mk "3" "" () ())
                ([] : List (GormMigration Unit)))))
          (fun _ => none)).2.1
        = [EngineCall.migrate
            (gormigrateNew (NewMigrationTool "host=localhost" none).1.db
              (NewMigrationTool "host=localhost" none).1.options
              (RegisterMigration (Migration.mk "2" "" () ())
                (RegisterMigration (Migration.mk "1" "" () ())
                  (RegisterMigration (Migration.mk "3" "" () ())
                    ([] : List (GormMigration Unit))))))]
      ∧ (MigrateDown (NewMigrationTool "host=localhost" none).1
          (RegisterMigration (Migration.mk "2" "" () ())
            (RegisterMigration (Migration.mk "1" "" () ())
              (RegisterMigration (Migration.mk "3" "" () ())
                ([] : List (GormMigration Unit)))))
          (fun _ => none)).2.1
        = [EngineCall.rollbackLast
            (gormigrateNew (NewMigrationTool "host=localhost" none).1.db
              (NewMigrationTool "host=localhost" none).1.options
              (RegisterMigration (Migration.mk "2" "" () ())
                (RegisterMigration (Migration.mk "1" "" () ())
                  (RegisterMigration (Migration.mk "3" "" () ())
                    ([] : List (GormMigration Unit))))))]) :=
  ⟨by decide,
    migrate_passes_registration_order (NewMigrationTool "host=localhost" none).1
      (RegisterMigration (Migration.mk "2" "" () ())
        (RegisterMigration (Migration.mk "1" "" () ())
          (RegisterMigration (Migration.mk "3" "" () ())
            ([] : List (GormMigration Unit)))))
      (fun _ => none) (by decide)⟩

/-! ### Timestamps: `time.Now().Format("20060102150405")` -/

/-- The decimal digit character for `n < 10`. -/
def digitChar (n : Nat) : Char := Char.ofNat (48 + n)

/-- Decimal digits of a natural number, most significant first; `fuel`
bounds the recursion depth (structural recursion so that the kernel can
evaluate it; any `fuel ≥ n` gives the true digit list). -/
def natDigitsAux (fuel n : Nat) : List Char :=
  match fuel with
  | 0 => [digitChar (n % 10)]
  | fuel + 1 =>
    if n < 10 then [digitChar n]
    else natDigitsAux fuel (n / 10) ++ [digitChar (n % 10)]

/-- Decimal digits of `n`, most significant first. -/
def natDigits (n : Nat) : List Char := natDigitsAux n n

/-- Zero-padding to width `w`, as Go's fixed-width time layout components
(`2006`, `01`, ..., `05`) print their fields. -/
def padNat (w n : Nat) : List Char :=
  List.replicate (w - (natDigits n).length) '0' ++ natDigits n

/-- A wall-clock time as far as the layout `20060102150405` observes it. -/
structure Tm where
  year : Nat
  month : Nat
  day : Nat
  hour : Nat
  minute : Nat
  second : Nat
deriving DecidableEq

/-- `time.Time.Format("20060102150405")`: the fields of the current time,
zero-padded to widths 4,2,2,2,2,2 and concatenated (`YYYYMMDDHHMMSS`). -/
def formatTimestamp (t : Tm) : String :=
  ⟨padNat 4 t.year ++ padNat 2 t.month ++ padNat 2 t.day ++
    padNat 2 t.hour ++ padNat 2 t.minute ++ padNat 2 t.second⟩

/-- A time whose fields are in the ranges `time.Now()` can produce (for
years up to 9999, where the layout yields exactly 4 year digits). -/
def validTm (t : Tm) : Prop :=
  t.year ≤ 9999 ∧ 1 ≤ t.month ∧ t.month ≤ 12 ∧ 1 ≤ t.day ∧ t.day ≤ 31 ∧
    t.hour ≤ 23 ∧ t.minute ≤ 59 ∧ t.second ≤ 59

instance (t : Tm) : Decidable (validTm t) := by
  unfold validTm
  infer_instance

theorem digitChar_isDigit {n : Nat} (h : n < 10) : (digitChar n).isDigit = true := by
  interval_cases n <;> decide

theorem natDigitsAux_digit (fuel : Nat) :
    ∀ n, ∀ c ∈ natDigitsAux fuel n, c.isDigit = true := by
  induction fuel with
  | zero =>
    intro n c hc
    simp [natDigitsAux] at hc
    subst hc
    exact digitChar_isDigit (Nat.mod_lt _ (by norm_num))
  | succ fuel ih =>
    intro n c hc
    rw [natDigitsAux] at hc
    by_cases hm : n < 10
    · rw [if_pos hm] at hc
      simp at hc
      subst hc
      exact digitChar_isDigit hm
    · rw [if_neg hm] at hc
      rcases List.mem_append.1 hc with h1 | h1
      · exact ih _ c h1
      · simp at h1
        subst h1
        exact digitChar_isDigit (Nat.mod_lt _ (by norm_num))

theorem natDigitsAux_ne_nil (fuel n : Nat) : natDigitsAux fuel n ≠ [] := by
  match fuel with
  | 0 => simp [natDigitsAux]
  | fuel + 1 =>
    rw [natDigitsAux]
    by_cases hm : n < 10
    · rw [if_pos hm]; simp
    · rw [if_neg hm]; simp

theorem natDigitsAux_length_le (fuel : Nat) :
    ∀ n k, 1 ≤ k → n < 10 ^ k → (natDigitsAux fuel n).length ≤ k := by
  induction fuel with
  | zero =>
    intro n k hk _
    simpa [natDigitsAux] using hk
  | succ fuel ih =>
    intro n k hk hn
    rw [natDigitsAux]
    by_cases hm : n < 10
    · rw [if_pos hm]; simpa using hk
    · rw [if_neg hm]
      have hk2 : 2 ≤ k := by
        by_contra hlt
        have hk1 : k = 1 := by omega
        rw [hk1] at hn
        simp at hn
        omega
      have hdiv : n / 10 < 10 ^ (k - 1) := by
        have h10 : (10 : Nat) ^ (k - 1) * 10 = 10 ^ k := by
          have hk' : k - 1 + 1 = k := by omega
          rw [← pow_succ, hk']
        apply Nat.div_lt_of_lt_mul
        rw [mul_comm, h10]
        exact hn
      have := ih (n / 10) (k - 1) (by omega) hdiv
      simp only [List.length_append, List.length_singleton]
      omega

theorem natDigits_length_le {n k : Nat} (hk : 1 ≤ k) (hn : n < 10 ^ k) :
    (natDigits n).length ≤ k :=
  natDigitsAux_length_le n n k hk hn

theorem padNat_digit (w n : Nat) : ∀ c ∈ padNat w n, c.isDigit = true := by
  intro c hc
  rcases List.mem_append.1 hc with h1 | h1
  · rcases List.eq_of_mem_replicate h1 with rfl
    decide
  · exact natDigitsAux_digit n n c h1

theorem padNat_length {w n : Nat} (h : (natDigits n).length ≤ w) :
    (padNat w n).length = w := by
  simp [padNat]
  omega

theorem padNat_ne_nil (w n : Nat) : padNat w n ≠ [] := by
  simp [padNat, natDigitsAux_ne_nil n n, natDigits]

theorem formatTimestamp_digit (t : Tm) :
    ∀ c ∈ (formatTimestamp t).data, c.isDigit = true := by
  intro c hc
  simp only [formatTimestamp, List.mem_append] at hc
  rcases hc with ((((h | h) | h) | h) | h) | h <;> exact padNat_digit _ _ c h

theorem formatTimestamp_ne_nil (t : Tm) : (formatTimestamp t).data ≠ [] := by
  simp [formatTimestamp, padNat_ne_nil]

theorem formatTimestamp_length {t : Tm} (h : validTm t) :
    (formatTimestamp t).data.length = 14 := by
  obtain ⟨hy, hm1, hm, hd1, hd, hh, hmin, hs⟩ := h
  have l4 : (padNat 4 t.year).length = 4 :=
    padNat_length (natDigits_length_le (by norm_num) (by norm_num; omega))
  have lmo : (padNat 2 t.month).length = 2 :=
    padNat_length (natDigits_length_le (by norm_num) (by norm_num; omega))
  have ld : (padNat 2 t.day).length = 2 :=
    padNat_length (natDigits_length_le (by norm_num) (by norm_num; omega))
  have lh : (padNat 2 t.hour).length = 2 :=
    padNat_length (natDigits_length_le (by norm_num) (by norm_num; omega))
  have lmin : (padNat 2 t.minute).length = 2 :=
    padNat_length (natDigits_length_le (by norm_num) (by norm_num; omega))
  have ls : (padNat 2 t.second).length = 2 :=
    padNat_length (natDigits_length_le (by norm_num) (by norm_num; omega))
  simp [formatTimestamp, l4, lmo, ld, lh, lmin, ls]

/-! ### String scanning: `strings.Replace`, `fmt.Sprintf`, occurrence counts -/

/-- Whether `pat` is an initial segment of `s` (byte-wise, as Go compares). -/
def startsWithPat : List Char → List Char → Bool
  | [], _ => true
  | _ :: _, [] => false
  | p :: ps, c :: cs => p == c && startsWithPat ps cs

theorem startsWithPat_iff (pat : List Char) :
    ∀ s : List Char, startsWithPat pat s = true ↔ ∃ u, s = pat ++ u := by
  induction pat with
  | nil => intro s; simp [startsWithPat]
  | cons p ps ih =>
    intro s
    match s with
    | [] => simp [startsWithPat]
    | c :: cs =>
      simp only [startsWithPat, Bool.and_eq_true, beq_iff_eq, ih cs]
      constructor
      · rintro ⟨rfl, u, rfl⟩
        exact ⟨u, rfl⟩
      · rintro ⟨u, hu⟩
        rw [List.cons_append] at hu
        injection hu with h1 h2
        exact ⟨h1.symm, u, h2⟩

/-- The scanning loop of `strings.Replace(s, old, new, -1)` for a non-empty
`old` pattern: every (non-overlapping, leftmost) occurrence of `pat` in the
remaining input is replaced by `rep`.  `fuel` bounds the recursion depth
structurally; any `fuel ≥ s.length` gives the true result. -/
def goReplaceAux (pat rep : List Char) : Nat → List Char → List Char
  | _, [] => []
  | 0, s => s
  | fuel + 1, c :: rest =>
    if !pat.isEmpty && startsWithPat pat (c :: rest) then
      rep ++ goReplaceAux pat rep fuel (rest.drop (pat.length - 1))
    else
      c :: goReplaceAux pat rep fuel rest

/-- `strings.Replace(s, old, new, -1)`: replace all occurrences. -/
def stringsReplace (s old new : String) : String :=
  ⟨goReplaceAux old.data new.data s.data.length s.data⟩

theorem goReplaceAux_space (fuel : Nat) :
    ∀ s : List Char, s.length ≤ fuel →
      goReplaceAux [' '] ['_'] fuel s
        = s.map (fun c => if c = ' ' then '_' else c) := by
  induction fuel with
  | zero =>
    intro s hs
    match s with
    | [] => rfl
    | c :: rest => simp at hs
  | succ fuel ih =>
    intro s hs
    match s with
    | [] => rfl
    | c :: rest =>
      have hr : rest.length ≤ fuel := by
        simp only [List.length_cons] at hs
        omega
      rw [goReplaceAux]
      by_cases hc : c = ' '
      · subst hc
        rw [if_pos (by simp [startsWithPat])]
        simp only [List.length_singleton, Nat.sub_self, List.drop_zero, List.map_cons,
          if_pos rfl]
        rw [ih rest hr]
        rfl
      · rw [if_neg (by simp [startsWithPat, Ne.symm hc])]
        simp only [List.map_cons, if_neg hc]
        rw [ih rest hr]

/-- `stringsReplace` with pattern `" "` replaces exactly the space
characters by underscores and leaves every other character untouched. -/
theorem stringsReplace_space (s : String) :
    stringsReplace s " " "_"
      = ⟨s.data.map (fun c => if c = ' ' then '_' else c)⟩ := by
  unfold stringsReplace
  rw [show (" " : String).data = [' '] from rfl,
    show ("_" : String).data = ['_'] from rfl,
    goReplaceAux_space s.data.length s.data (le_refl _)]

/-- Replacement of the first occurrence only: the scanning done by
`fmt.Sprintf` when it meets its single verb. -/
def replaceFirst : List Char → List Char → List Char → List Char
  | [], _, _ => []
  | c :: rest, pat, rep =>
    if !pat.isEmpty && startsWithPat pat (c :: rest) then
      rep ++ (c :: rest).drop pat.length
    else
      c :: replaceFirst rest pat rep

/-- `fmt.Sprintf(format, arg)` for a format string holding exactly one `%s`
verb: the verb is replaced by `arg`. -/
def sprintf1 (format arg : String) : String :=
  ⟨replaceFirst format.data ['%', 's'] arg.data⟩

theorem replaceFirst_splice (b rep : List Char) :
    ∀ a : List Char, (∀ c ∈ a, c ≠ '%') →
      replaceFirst (a ++ '%' :: 's' :: b) ['%', 's'] rep = a ++ rep ++ b := by
  intro a
  induction a with
  | nil =>
    intro _
    rw [List.nil_append, replaceFirst, if_pos (by simp [startsWithPat])]
    simp
  | cons x a ih =>
    intro h
    have hx : x ≠ '%' := h x (List.mem_cons_self x a)
    rw [List.cons_append, replaceFirst,
      if_neg (by simp [startsWithPat, Ne.symm hx]),
      ih (fun c hc => h c (List.mem_cons_of_mem x hc))]
    simp

/-- Number of positions of `s` at which `pat` matches. -/
def countOcc : List Char → List Char → Nat
  | [], _ => 0
  | c :: rest, pat =>
    (if startsWithPat pat (c :: rest) = true then 1 else 0) + countOcc rest pat

theorem startsWithPat_append_sep {pat : List Char}
    (hpat : ∀ c ∈ pat, c.isDigit = false) {y : Char} (hy : y.isDigit = true)
    (ys : List Char) :
    ∀ l : List Char, startsWithPat pat (l ++ y :: ys) = startsWithPat pat l := by
  intro l
  cases hsw : startsWithPat pat l with
  | true =>
    obtain ⟨u, rfl⟩ := (startsWithPat_iff pat l).1 hsw
    rw [List.append_assoc]
    exact (startsWithPat_iff pat _).2 ⟨u ++ y :: ys, rfl⟩
  | false =>
    cases h2 : startsWithPat pat (l ++ y :: ys) with
    | false => rfl
    | true =>
      exfalso
      obtain ⟨u, hu⟩ := (startsWithPat_iff pat _).1 h2
      rcases List.append_eq_append_iff.1 hu with ⟨a', hpa, hyu⟩ | ⟨c', hlc, _⟩
      · match a', hyu with
        | [], _ =>
          rw [List.append_nil] at hpa
          rw [← hpa] at hsw
          rw [(startsWithPat_iff pat pat).2 ⟨[], by simp⟩] at hsw
          exact Bool.false_ne_true hsw.symm
        | z :: zs, hyu =>
          rw [List.cons_append] at hyu
          injection hyu with hz _
          have hyp : y ∈ pat := by
            rw [hpa, hz]
            exact List.mem_append.2 (Or.inr (List.mem_cons_self z zs))
          rw [hpat y hyp] at hy
          exact Bool.false_ne_true hy
      · rw [(startsWithPat_iff pat l).2 ⟨c', hlc⟩] at hsw
        exact Bool.false_ne_true hsw.symm

theorem countOcc_append_sep {pat : List Char}
    (hpat : ∀ c ∈ pat, c.isDigit = false) {y : Char} (hy : y.isDigit = true)
    (ys : List Char) :
    ∀ l : List Char, countOcc (l ++ y :: ys) pat = countOcc l pat + countOcc (y :: ys) pat := by
  intro l
  induction l with
  | nil => simp [countOcc]
  | cons c l ih =>
    rw [List.cons_append, countOcc, ← List.cons_append,
      startsWithPat_append_sep hpat hy ys (c :: l), ih]
    simp only [countOcc]
    omega

theorem countOcc_digits_prepend {pat : List Char} (hne : pat ≠ [])
    (hpat : ∀ c ∈ pat, c.isDigit = false) (b : List Char) :
    ∀ ds : List Char, (∀ c ∈ ds, c.isDigit = true) →
      countOcc (ds ++ b) pat = countOcc b pat := by
  intro ds
  induction ds with
  | nil => intro _; rfl
  | cons d ds ih =>
    intro h
    have hd : d.isDigit = true := h d (List.mem_cons_self d ds)
    match pat, hne with
    | p :: ps, _ =>
      have hp : p.isDigit = false := hpat p (List.mem_cons_self p ps)
      have hpd : (p == d) = false := by
        cases hbeq : p == d with
        | false => rfl
        | true =>
          rw [beq_iff_eq] at hbeq
          rw [hbeq, hd] at hp
          exact absurd hp (by simp)
      rw [List.cons_append, countOcc,
        if_neg (by simp [startsWithPat, hpd]),
        ih (fun c hc => h c (List.mem_cons_of_mem d hc))]
      omega

theorem countOcc_splice {pat : List Char} (hne : pat ≠ [])
    (hpat : ∀ c ∈ pat, c.isDigit = false) (a b : List Char)
    {ts : List Char} (hts : ∀ c ∈ ts, c.isDigit = true) (htsne : ts ≠ []) :
    countOcc (a ++ ts ++ b) pat = countOcc a pat + countOcc b pat := by
  match ts, htsne with
  | d :: ds, _ =>
    have hd : d.isDigit = true := hts d (List.mem_cons_self d ds)
    rw [List.append_assoc, List.cons_append,
      countOcc_append_sep hpat hd (ds ++ b) a,
      ← List.cons_append,
      countOcc_digits_prepend hne hpat b (d :: ds) hts]

/-! ### The filesystem and the scaffolding functions -/

/-- The filesystem as the scaffolding code observes it: created directories,
file contents by path, plus the sets of paths on which `os.MkdirAll` /
`os.Create` fail (`failing`: permission or disk errors) and on which
`WriteString` fails (`failingWrite`: e.g. disk full mid-write). -/
structure FSState where
  dirs : List String
  files : List (String × String)
  failing : List String
  failingWrite : List String
deriving DecidableEq

/-- Store `content` under `path`, replacing any existing entry in place. -/
def setFile (path content : String) : List (String × String) → List (String × String)
  | [] => [(path, content)]
  | (p, c) :: rest =>
    if p = path then (p, content) :: rest else (p, c) :: setFile path content rest

/-- The current content of the file at `path` (empty if absent). -/
def getFile (path : String) (files : List (String × String)) : String :=
  (files.lookup path).getD ""

/-- `os.MkdirAll(dir, os.ModePerm)`: creates the directory chain if absent
and succeeds if it already exists (idempotent); it fails only on filesystem
errors, modelled by membership in `failing`. -/
def osMkdirAll (dir : String) (fs : FSState) : Except Err Unit × FSState :=
  if fs.failing.contains dir then
    (Except.error ⟨"mkdir " ++ dir ++ ": permission denied"⟩, fs)
  else
    (Except.ok (),
      { fs with dirs := if fs.dirs.contains dir then fs.dirs else dir :: fs.dirs })

/-- `os.Create(path)`: opens with `O_RDWR|O_CREATE|O_TRUNC`, creating the
file if absent and truncating it to empty if it already exists; an existing
file is NOT an error.  Filesystem errors are modelled by `failing`. -/
def osCreate (path : String) (fs : FSState) : Except Err Unit × FSState :=
  if fs.failing.contains path then
    (Except.error ⟨"open " ++ path ++ ": permission denied"⟩, fs)
  else
    (Except.ok (), { fs with files := setFile path "" fs.files })

/-- `file.WriteString(content)` on a freshly created handle: appends at the
current offset (zero right after `os.Create`).  Write errors are modelled by
`failingWrite`. -/
def fileWriteString (path content : String) (fs : FSState) : Except Err Unit × FSState :=
  if fs.failingWrite.contains path then
    (Except.error ⟨"write " ++ path ++ ": no space left on device"⟩, fs)
  else
    (Except.ok (),
      { fs with files := setFile path (getFile path fs.files ++ content) fs.files })

/-- The raw string literal `migrationTemplate` (`deadigations.go` lines
146-166); Go brace characters appear as their escapes `\x7b`/`\x7d`. -/
def migrationTemplate : String :=
  "package migrations\n\nimport (\n\t\"github.com/Bparsons0904/deadigations\"\n\t\"gorm.io/gorm\"\n)\n\nfunc init() \x7b\n\tdeadigations.RegisterMigration(deadigations.Migration\x7b\n\t\tID:          \"%s\",\n\t\tDescription: \"Add description of changes\",\n\t\tMigrate: func(tx *gorm.DB) error \x7b\n\t\t\t// Your migration logic goes here.\n\t\t\treturn nil // Replace with actual code\n\t\t\x7d,\n\t\tRollback: func(tx *gorm.DB) error \x7b\n\t\t\t// Your rollback logic goes here.\n\t\t\treturn nil // Replace with actual code\n\t\t\x7d,\n\t\x7d)\n\x7d"

/-- `migrationTemplate` up to (and excluding) its single `%s` verb. -/
def migrationTemplatePre : String :=
  "package migrations\n\nimport (\n\t\"github.com/Bparsons0904/deadigations\"\n\t\"gorm.io/gorm\"\n)\n\nfunc init() \x7b\n\tdeadigations.RegisterMigration(deadigations.Migration\x7b\n\t\tID:          \""

/-- `migrationTemplate` after its single `%s` verb. -/
def migrationTemplatePost : String :=
  "\",\n\t\tDescription: \"Add description of changes\",\n\t\tMigrate: func(tx *gorm.DB) error \x7b\n\t\t\t// Your migration logic goes here.\n\t\t\treturn nil // Replace with actual code\n\t\t\x7d,\n\t\tRollback: func(tx *gorm.DB) error \x7b\n\t\t\t// Your rollback logic goes here.\n\t\t\treturn nil // Replace with actual code\n\t\t\x7d,\n\t\x7d)\n\x7d"

/-- `migrationTemplatePre` without its trailing ID-field marker. -/
def migrationTemplatePreA : String :=
  "package migrations\n\nimport (\n\t\"github.com/Bparsons0904/deadigations\"\n\t\"gorm.io/gorm\"\n)\n\nfunc init() \x7b\n\tdeadigations.RegisterMigration(deadigations.Migration\x7b\n\t\t"

/-- `migrationTemplatePost` without its leading closing quote and comma. -/
def migrationTemplatePostB : String :=
  "\n\t\tDescription: \"Add description of changes\",\n\t\tMigrate: func(tx *gorm.DB) error \x7b\n\t\t\t// Your migration logic goes here.\n\t\t\treturn nil // Replace with actual code\n\t\t\x7d,\n\t\tRollback: func(tx *gorm.DB) error \x7b\n\t\t\t// Your rollback logic goes here.\n\t\t\treturn nil // Replace with actual code\n\t\t\x7d,\n\t\x7d)\n\x7d"

/-- The raw string literal `transactionMigrationTemplate`
(`deadigations.go` lines 193-243). -/
def transactionMigrationTemplate : String :=
  "package migrations\n\nimport (\n\t\"github.com/Bparsons0904/deadigations\"\n\t\"gorm.io/gorm\"\n)\n\nfunc init() \x7b\n\tdeadigations.RegisterMigration(deadigations.Migration\x7b\n\t\tID:          \"%s\",\n\t\tDescription: \"Add description of changes with transaction support\",\n\t\tMigrate: func(tx *gorm.DB) error \x7b\n\t\t\t// Begin transaction\n\t\t\terr := tx.Transaction(func(tx *gorm.DB) error \x7b\n\t\t\t\t// Your first operation\n\t\t\t\tif err := tx.Exec(\"/* first operation SQL */\").Error; err != nil \x7b\n\t\t\t\t\treturn err\n\t\t\t\t\x7d\n\n\t\t\t\t// Your second operation\n\t\t\t\tif err := tx.Exec(\"/* second operation SQL */\").Error; err != nil \x7b\n\t\t\t\t\treturn err\n\t\t\t\t\x7d\n\n\t\t\t\t// Add more operations as needed\n\n\t\t\t\treturn nil // Commit transaction\n\t\t\t\x7d)\n\t\t\treturn err\n\t\t\x7d,\n\t\tRollback: func(tx *gorm.DB) error \x7b\n\t\t\t// Begin transaction\n\t\t\terr := tx.Transaction(func(tx *gorm.DB) error \x7b\n\t\t\t\t// Your first rollback operation\n\t\t\t\tif err := tx.Exec(\"/* first rollback SQL */\").Error; err != nil \x7b\n\t\t\t\t\treturn err\n\t\t\t\t\x7d\n\n\t\t\t\t// Your second rollback operation\n\t\t\t\tif err := tx.AutoMigrate(&Product\x7b\x7d); err != nil \x7b\n\t\t\t\t\treturn err\n\t\t\t\t\x7d\n\n\t\t\t\t// Add more rollback operations as needed\n\n\t\t\t\treturn nil // Commit rollback transaction\n\t\t\t\x7d)\n\t\t\treturn err\n\t\t\x7d,\n\t\x7d)\n\x7d"

/-- `transactionMigrationTemplate` up to its single `%s` verb. -/
def transactionMigrationTemplatePre : String :=
  "package migrations\n\nimport (\n\t\"github.com/Bparsons0904/deadigations\"\n\t\"gorm.io/gorm\"\n)\n\nfunc init() \x7b\n\tdeadigations.RegisterMigration(deadigations.Migration\x7b\n\t\tID:          \""

/-- `transactionMigrationTemplate` after its single `%s` verb. -/
def transactionMigrationTemplatePost : String :=
  "\",\n\t\tDescription: \"Add description of changes with transaction support\",\n\t\tMigrate: func(tx *gorm.DB) error \x7b\n\t\t\t// Begin transaction\n\t\t\terr := tx.Transaction(func(tx *gorm.DB) error \x7b\n\t\t\t\t// Your first operation\n\t\t\t\tif err := tx.Exec(\"/* first operation SQL */\").Error; err != nil \x7b\n\t\t\t\t\treturn err\n\t\t\t\t\x7d\n\n\t\t\t\t// Your second operation\n\t\t\t\tif err := tx.Exec(\"/* second operation SQL */\").Error; err != nil \x7b\n\t\t\t\t\treturn err\n\t\t\t\t\x7d\n\n\t\t\t\t// Add more operations as needed\n\n\t\t\t\treturn nil // Commit transaction\n\t\t\t\x7d)\n\t\t\treturn err\n\t\t\x7d,\n\t\tRollback: func(tx *gorm.DB) error \x7b\n\t\t\t// Begin transaction\n\t\t\terr := tx.Transaction(func(tx *gorm.DB) error \x7b\n\t\t\t\t// Your first rollback operation\n\t\t\t\tif err := tx.Exec(\"/* first rollback SQL */\").Error; err != nil \x7b\n\t\t\t\t\treturn err\n\t\t\t\t\x7d\n\n\t\t\t\t// Your second rollback operation\n\t\t\t\tif err := tx.AutoMigrate(&Product\x7b\x7d); err != nil \x7b\n\t\t\t\t\treturn err\n\t\t\t\t\x7d\n\n\t\t\t\t// Add more rollback operations as needed\n\n\t\t\t\treturn nil // Commit rollback transaction\n\t\t\t\x7d)\n\t\t\treturn err\n\t\t\x7d,\n\t\x7d)\n\x7d"

/-- `transactionMigrationTemplatePre` without its trailing ID-field marker. -/
def transactionMigrationTemplatePreA : String :=
  "package migrations\n\nimport (\n\t\"github.com/Bparsons0904/deadigations\"\n\t\"gorm.io/gorm\"\n)\n\nfunc init() \x7b\n\tdeadigations.RegisterMigration(deadigations.Migration\x7b\n\t\t"

/-- `transactionMigrationTemplatePost` without its leading quote-comma. -/
def transactionMigrationTemplatePostB : String :=
  "\n\t\tDescription: \"Add description of changes with transaction support\",\n\t\tMigrate: func(tx *gorm.DB) error \x7b\n\t\t\t// Begin transaction\n\t\t\terr := tx.Transaction(func(tx *gorm.DB) error \x7b\n\t\t\t\t// Your first operation\n\t\t\t\tif err := tx.Exec(\"/* first operation SQL */\").Error; err != nil \x7b\n\t\t\t\t\treturn err\n\t\t\t\t\x7d\n\n\t\t\t\t// Your second operation\n\t\t\t\tif err := tx.Exec(\"/* second operation SQL */\").Error; err != nil \x7b\n\t\t\t\t\treturn err\n\t\t\t\t\x7d\n\n\t\t\t\t// Add more operations as needed\n\n\t\t\t\treturn nil // Commit transaction\n\t\t\t\x7d)\n\t\t\treturn err\n\t\t\x7d,\n\t\tRollback: func(tx *gorm.DB) error \x7b\n\t\t\t// Begin transaction\n\t\t\terr := tx.Transaction(func(tx *gorm.DB) error \x7b\n\t\t\t\t// Your first rollback operation\n\t\t\t\tif err := tx.Exec(\"/* first rollback SQL */\").Error; err != nil \x7b\n\t\t\t\t\treturn err\n\t\t\t\t\x7d\n\n\t\t\t\t// Your second rollback operation\n\t\t\t\tif err := tx.AutoMigrate(&Product\x7b\x7d); err != nil \x7b\n\t\t\t\t\treturn err\n\t\t\t\t\x7d\n\n\t\t\t\t// Add more rollback operations as needed\n\n\t\t\t\treturn nil // Commit rollback transaction\n\t\t\t\x7d)\n\t\t\treturn err\n\t\t\x7d,\n\t\x7d)\n\x7d"

/-- `fmt.Sprintf("%s_%s.go", timestamp, strings.Replace(name, " ", "_", -1))`:
the generated migration filename, shared by `CreateMigrationFile` and
`CreateTransactionMigrationFile` (`deadigations.go` lines 133 and 180). -/
def migrationFilename (t : Tm) (name : String) : String :=
  formatTimestamp t ++ "_" ++ stringsReplace name " " "_" ++ ".go"

/-- `fmt.Sprintf("./migrator/migrations/%s", filename)` (lines 134 and 181). -/
def migrationFilePath (t : Tm) (name : String) : String :=
  "./migrator/migrations/" ++ migrationFilename t name

/-- `CreateMigrationFile` (`deadigations.go` lines 131-176), with the clock
(`time.Now()`) and the filesystem passed explicitly; returns the `error`
result, the final filesystem, and the `log` lines. -/
def CreateMigrationFile (t : Tm) (name : String) (fs : FSState) :
    Except Err Unit × FSState × List String :=
  let timestamp := formatTimestamp t
  let filePath := migrationFilePath t name
  match osMkdirAll "./migrator/migrations" fs with
  | (Except.error e, fs₁) => (Except.error e, fs₁, [])
  | (Except.ok _, fs₁) =>
    match osCreate filePath fs₁ with
    | (Except.error e, fs₂) => (Except.error e, fs₂, [])
    | (Except.ok _, fs₂) =>
      let migrationContent := sprintf1 migrationTemplate timestamp
      match fileWriteString filePath migrationContent fs₂ with
      | (Except.error e, fs₃) => (Except.error e, fs₃, [])
      | (Except.ok _, fs₃) =>
        (Except.ok (), fs₃, ["Migration file created: " ++ filePath])

/-- `CreateTransactionMigrationFile` (`deadigations.go` lines 178-253). -/
def CreateTransactionMigrationFile (t : Tm) (name : String) (fs : FSState) :
    Except Err Unit × FSState × List String :=
  let timestamp := formatTimestamp t
  let filePath := migrationFilePath t name
  match osMkdirAll "./migrator/migrations" fs with
  | (Except.error e, fs₁) => (Except.error e, fs₁, [])
  | (Except.ok _, fs₁) =>
    match osCreate filePath fs₁ with
    | (Except.error e, fs₂) => (Except.error e, fs₂, [])
    | (Except.ok _, fs₂) =>
      let transactionMigrationContent := sprintf1 transactionMigrationTemplate timestamp
      match fileWriteString filePath transactionMigrationContent fs₂ with
      | (Except.error e, fs₃) => (Except.error e, fs₃, [])
      | (Except.ok _, fs₃) =>
        (Except.ok (), fs₃, ["Transaction migration file created: " ++ filePath])

/-! ### Facts about the filesystem model -/

theorem lookup_setFile (path content : String) :
    ∀ files : List (String × String),
      (setFile path content files).lookup path = some content := by
  intro files
  induction files with
  | nil => simp [setFile, List.lookup]
  | cons pc rest ih =>
    obtain ⟨p, c⟩ := pc
    by_cases hp : p = path
    · subst hp
      simp [setFile, List.lookup]
    · have hbeq : (path == p) = false := beq_eq_false_iff_ne.2 (Ne.symm hp)
      rw [setFile, if_neg hp]
      simp [List.lookup, hbeq, ih]

theorem getFile_setFile_empty (path : String) (files : List (String × String)) :
    getFile path (setFile path "" files) = "" := by
  simp [getFile, lookup_setFile]

theorem empty_string_append (s : String) : "" ++ s = s := by
  cases s
  rfl

/-! ### C4: the generated filename -/

/-- C4: for every name and a fixed clock (`t`), `CreateMigrationFile` and
`CreateTransactionMigrationFile` both target the filename
`<timestamp>_<name>.go` where every space in the name is replaced by an
underscore and every other character is untouched, and the timestamp is the
clock formatted as `YYYYMMDDHHMMSS` — 14 characters, all digits, for any
valid clock.  On a healthy filesystem both functions create exactly that
file (under `./migrator/migrations/`) with the template content. -/
theorem createMigrationFile_filename (t : Tm) (name : String) (fs : FSState)
    (hvalid : validTm t) (hfail : fs.failing = []) (hwrite : fs.failingWrite = []) :
    migrationFilename t name
      = formatTimestamp t ++ "_" ++
          (⟨name.data.map (fun c => if c = ' ' then '_' else c)⟩ : String) ++ ".go"
    ∧ (formatTimestamp t).data.length = 14
    ∧ (∀ c ∈ (formatTimestamp t).data, c.isDigit = true)
    ∧ (CreateMigrationFile t name fs).2.1.files.lookup (migrationFilePath t name)
        = some (sprintf1 migrationTemplate (formatTimestamp t))
    ∧ (CreateTransactionMigrationFile t name fs).2.1.files.lookup (migrationFilePath t name)
        = some (sprintf1 transactionMigrationTemplate (formatTimestamp t)) := by
  refine ⟨?_, formatTimestamp_length hvalid, formatTimestamp_digit t, ?_, ?_⟩
  · unfold migrationFilename
    rw [stringsReplace_space]
  · simp [CreateMigrationFile, osMkdirAll, osCreate, fileWriteString, hfail, hwrite,
      lookup_setFile, getFile_setFile_empty, empty_string_append]
  · simp [CreateTransactionMigrationFile, osMkdirAll, osCreate, fileWriteString, hfail,
      hwrite, lookup_setFile, getFile_setFile_empty, empty_string_append]

/-- C4 witness: the concrete clock 2024-08-03 12:00:00 and the name
`"add users"` on an empty healthy filesystem. -/
theorem createMigrationFile_filename_witness :
    validTm (Tm.mk 2024 8 3 12 0 0)
    ∧ (FSState.mk [] [] [] []).failing = []
    ∧ (FSState.mk [] [] [] []).failingWrite = []
    ∧ (migrationFilename (Tm.mk 2024 8 3 12 0 0) "add users"
        = formatTimestamp (Tm.mk 2024 8 3 12 0 0) ++ "_" ++
            (⟨("add users" : String).data.map (fun c => if c = ' ' then '_' else c)⟩ : String)
            ++ ".go"
      ∧ (formatTimestamp (Tm.mk 2024 8 3 12 0 0)).data.length = 14
      ∧ (∀ c ∈ (formatTimestamp (Tm.mk 2024 8 3 12 0 0)).data, c.isDigit = true)
      ∧ (CreateMigrationFile (Tm.mk 2024 8 3 12 0 0) "add users"
            (FSState.mk [] [] [] [])).2.1.files.lookup
            (migrationFilePath (Tm.mk 2024 8 3 12 0 0) "add users")
          = some (sprintf1 migrationTemplate (formatTimestamp (Tm.mk 2024 8 3 12 0 0)))
      ∧ (CreateTransactionMigrationFile (Tm.mk 2024 8 3 12 0 0) "add users"
            (FSState.mk [] [] [] [])).2.1.files.lookup
            (migrationFilePath (Tm.mk 2024 8 3 12 0 0) "add users")
          = some (sprintf1 transactionMigrationTemplate
              (formatTimestamp (Tm.mk 2024 8 3 12 0 0)))) :=
  ⟨by decide, rfl, rfl,
    createMigrationFile_filename (Tm.mk 2024 8 3 12 0 0) "add users"
      (FSState.mk [] [] [] []) (by decide) rfl rfl⟩

/-! ### C5: the generated file content -/

theorem migrationContent_eq (arg : String) :
    sprintf1 migrationTemplate arg
      = migrationTemplatePre ++ arg ++ migrationTemplatePost := by
  have hpre : ∀ c ∈ migrationTemplatePre.data, c ≠ '%' := by decide
  have hsplit : migrationTemplate.data
      = migrationTemplatePre.data ++ '%' :: 's' :: migrationTemplatePost.data := rfl
  have hr : migrationTemplatePre ++ arg ++ migrationTemplatePost
      = ⟨migrationTemplatePre.data ++ arg.data ++ migrationTemplatePost.data⟩ := by
    cases arg
    rfl
  unfold sprintf1
  rw [hsplit,
    replaceFirst_splice migrationTemplatePost.data arg.data migrationTemplatePre.data hpre,
    hr]

theorem transactionMigrationContent_eq (arg : String) :
    sprintf1 transactionMigrationTemplate arg
      = transactionMigrationTemplatePre ++ arg ++ transactionMigrationTemplatePost := by
  have hpre : ∀ c ∈ transactionMigrationTemplatePre.data, c ≠ '%' := by decide
  have hsplit : transactionMigrationTemplate.data
      = transactionMigrationTemplatePre.data ++ '%' :: 's' ::
          transactionMigrationTemplatePost.data := rfl
  have hr : transactionMigrationTemplatePre ++ arg ++ transactionMigrationTemplatePost
      = ⟨transactionMigrationTemplatePre.data ++ arg.data ++
          transactionMigrationTemplatePost.data⟩ := by
    cases arg
    rfl
  unfold sprintf1
  rw [hsplit,
    replaceFirst_splice transactionMigrationTemplatePost.data arg.data
      transactionMigrationTemplatePre.data hpre,
    hr]

/-- C5: the content written by `CreateMigrationFile` — which is
`sprintf1 migrationTemplate (formatTimestamp t)` by definition — contains
exactly one registration call, its `ID` field is exactly the generated
timestamp, and its `Migrate`/`Rollback` bodies are the two empty
`return nil` placeholders; the content written by
`CreateTransactionMigrationFile` wraps both bodies in a
`tx.Transaction(...)` construct (two of them in the whole file) holding two
placeholder statements each. -/
theorem migration_template_content (t : Tm) :
    (∃ a b : List Char,
        (sprintf1 migrationTemplate (formatTimestamp t)).data
          = a ++ ("ID:          \"" ++ formatTimestamp t ++ "\",").data ++ b)
    ∧ countOcc (sprintf1 migrationTemplate (formatTimestamp t)).data
        ("deadigations.RegisterMigration(" : String).data = 1
    ∧ countOcc (sprintf1 migrationTemplate (formatTimestamp t)).data
        ("return nil // Replace with actual code" : String).data = 2
    ∧ (∃ a b : List Char,
        (sprintf1 transactionMigrationTemplate (formatTimestamp t)).data
          = a ++ ("ID:          \"" ++ formatTimestamp t ++ "\",").data ++ b)
    ∧ countOcc (sprintf1 transactionMigrationTemplate (formatTimestamp t)).data
        ("deadigations.RegisterMigration(" : String).data = 1
    ∧ countOcc (sprintf1 transactionMigrationTemplate (formatTimestamp t)).data
        ("err := tx.Transaction(func(tx *gorm.DB) error \x7b" : String).data = 2
    ∧ countOcc (sprintf1 transactionMigrationTemplate (formatTimestamp t)).data
        ("tx.Exec(\"/* first operation SQL */\")" : String).data = 1
    ∧ countOcc (sprintf1 transactionMigrationTemplate (formatTimestamp t)).data
        ("tx.Exec(\"/* second operation SQL */\")" : String).data = 1
    ∧ countOcc (sprintf1 transactionMigrationTemplate (formatTimestamp t)).data
        ("tx.Exec(\"/* first rollback SQL */\")" : String).data = 1
    ∧ countOcc (sprintf1 transactionMigrationTemplate (formatTimestamp t)).data
        ("tx.AutoMigrate(&Product\x7b\x7d)" : String).data = 1 := by
  have hts := formatTimestamp_digit t
  have htsne := formatTimestamp_ne_nil t
  have hdp : (migrationTemplatePre ++ formatTimestamp t ++ migrationTemplatePost).data
      = migrationTemplatePre.data ++ (formatTimestamp t).data ++
          migrationTemplatePost.data := by
    simp [String.data_append]
  have hdt : (transactionMigrationTemplatePre ++ formatTimestamp t ++
        transactionMigrationTemplatePost).data
      = transactionMigrationTemplatePre.data ++ (formatTimestamp t).data ++
          transactionMigrationTemplatePost.data := by
    simp [String.data_append]
  refine ⟨?_, ?_, ?_, ?_, ?_, ?_, ?_, ?_, ?_, ?_⟩
  · refine ⟨migrationTemplatePreA.data, migrationTemplatePostB.data, ?_⟩
    rw [migrationContent_eq,
      show migrationTemplatePre = migrationTemplatePreA ++ "ID:          \"" from rfl,
      show migrationTemplatePost = "\"," ++ migrationTemplatePostB from rfl]
    simp [String.data_append, List.append_assoc]
  · rw [migrationContent_eq, hdp,
      countOcc_splice (by decide) (by decide) _ _ hts htsne]
    decide
  · rw [migrationContent_eq, hdp,
      countOcc_splice (by decide) (by decide) _ _ hts htsne]
    decide
  · refine ⟨transactionMigrationTemplatePreA.data,
      transactionMigrationTemplatePostB.data, ?_⟩
    rw [transactionMigrationContent_eq,
      show transactionMigrationTemplatePre
          = transactionMigrationTemplatePreA ++ "ID:          \"" from rfl,
      show transactionMigrationTemplatePost
          = "\"," ++ transactionMigrationTemplatePostB from rfl]
    simp [String.data_append, List.append_assoc]
  · rw [transactionMigrationContent_eq, hdt,
      countOcc_splice (by decide) (by decide) _ _ hts htsne]
    decide
  · rw [transactionMigrationContent_eq, hdt,
      countOcc_splice (by decide) (by decide) _ _ hts htsne]
    decide
  · rw [transactionMigrationContent_eq, hdt,
      countOcc_splice (by decide) (by decide) _ _ hts htsne]
    decide
  · rw [transactionMigrationContent_eq, hdt,
      countOcc_splice (by decide) (by decide) _ _ hts htsne]
    decide
  · rw [transactionMigrationContent_eq, hdt,
      countOcc_splice (by decide) (by decide) _ _ hts htsne]
    decide
  · rw [transactionMigrationContent_eq, hdt,
      countOcc_splice (by decide) (by decide) _ _ hts htsne]
    decide

/-! ### C6: scaffolding error behaviour -/

/-- C6 counterexample: a second `CreateMigrationFile` call within the same
second (same clock, same name, so the same filename) against a filesystem
already holding that file does NOT fail: `os.Create` truncates the existing
file and the call returns `nil`. -/
theorem createMigrationFile_duplicate_counterexample :
    (CreateMigrationFile (Tm.mk 2024 8 3 12 0 0) "add users"
        (CreateMigrationFile (Tm.mk 2024 8 3 12 0 0) "add users"
          (FSState.mk [] [] [] [])).2.1).1 = Except.ok () := by
  rfl

/-- C6 (amended): `CreateMigrationFile` (and the transactional variant)
fails with an error exactly when the filesystem fails — directory creation,
file creation, or the write itself — and the failed call leaves the file
map as it found it (except that a failed write leaves the freshly truncated
file).  A duplicate filename from a second call within the same second is
NOT an error: `os.Create` truncates the existing file and the call
overwrites it with the template content and returns `nil`. -/
theorem createMigrationFile_failure_modes (t : Tm) (name : String)
    (fs₁ fs₂ fs₃ fs₄ : FSState) (old : String)
    (h₁ : "./migrator/migrations" ∈ fs₁.failing)
    (h₂ : "./migrator/migrations" ∉ fs₂.failing
      ∧ migrationFilePath t name ∈ fs₂.failing)
    (h₃ : "./migrator/migrations" ∉ fs₃.failing
      ∧ migrationFilePath t name ∉ fs₃.failing
      ∧ migrationFilePath t name ∈ fs₃.failingWrite)
    (h₄ : fs₄.failing = [] ∧ fs₄.failingWrite = []
      ∧ fs₄.files.lookup (migrationFilePath t name) = some old) :
    (∃ e, (CreateMigrationFile t name fs₁).1 = Except.error e
      ∧ (CreateMigrationFile t name fs₁).2.1.files = fs₁.files)
    ∧ (∃ e, (CreateMigrationFile t name fs₂).1 = Except.error e
      ∧ (CreateMigrationFile t name fs₂).2.1.files = fs₂.files)
    ∧ (∃ e, (CreateMigrationFile t name fs₃).1 = Except.error e)
    ∧ (∃ e, (CreateTransactionMigrationFile t name fs₂).1 = Except.error e)
    ∧ ((CreateMigrationFile t name fs₄).1 = Except.ok ()
      ∧ (CreateMigrationFile t name fs₄).2.1.files.lookup (migrationFilePath t name)
          = some (sprintf1 migrationTemplate (formatTimestamp t))) := by
  obtain ⟨h₂₁, h₂₂⟩ := h₂
  obtain ⟨h₃₁, h₃₂, h₃₃⟩ := h₃
  obtain ⟨h₄₁, h₄₂, _⟩ := h₄
  refine ⟨⟨⟨"mkdir " ++ "./migrator/migrations" ++ ": permission denied"⟩, ?_, ?_⟩,
    ⟨⟨"open " ++ migrationFilePath t name ++ ": permission denied"⟩, ?_, ?_⟩,
    ⟨⟨"write " ++ migrationFilePath t name ++ ": no space left on device"⟩, ?_⟩,
    ⟨⟨"open " ++ migrationFilePath t name ++ ": permission denied"⟩, ?_⟩, ?_, ?_⟩
  · simp [CreateMigrationFile, osMkdirAll, h₁]
  · simp [CreateMigrationFile, osMkdirAll, h₁]
  · simp [CreateMigrationFile, osMkdirAll, osCreate, h₂₁, h₂₂]
  · simp [CreateMigrationFile, osMkdirAll, osCreate, h₂₁, h₂₂]
  · simp [CreateMigrationFile, osMkdirAll, osCreate, fileWriteString, h₃₁, h₃₂, h₃₃]
  · simp [CreateTransactionMigrationFile, osMkdirAll, osCreate, h₂₁, h₂₂]
  · simp [CreateMigrationFile, osMkdirAll, osCreate, fileWriteString, h₄₁, h₄₂]
  · simp [CreateMigrationFile, osMkdirAll, osCreate, fileWriteString, h₄₁, h₄₂,
      lookup_setFile, getFile_setFile_empty, empty_string_append]

/-- C6 witness: concrete filesystems exhibiting each failure mode and the
duplicate-overwrite success, at the clock 2024-08-03 12:00:00. -/
theorem createMigrationFile_failure_modes_witness :
    ("./migrator/migrations" ∈ (FSState.mk [] [] ["./migrator/migrations"] []).failing)
    ∧ ("./migrator/migrations" ∉ (FSState.mk [] []
          [migrationFilePath (Tm.mk 2024 8 3 12 0 0) "add users"] []).failing
      ∧ migrationFilePath (Tm.mk 2024 8 3 12 0 0) "add users"
          ∈ (FSState.mk [] [] [migrationFilePath (Tm.mk 2024 8 3 12 0 0) "add users"]
              []).failing)
    ∧ ("./migrator/migrations" ∉ (FSState.mk [] [] []
          [migrationFilePath (Tm.mk 2024 8 3 12 0 0) "add users"]).failing
      ∧ migrationFilePath (Tm.mk 2024 8 3 12 0 0) "add users"
          ∉ (FSState.mk [] [] []
              [migrationFilePath (Tm.mk 2024 8 3 12 0 0) "add users"]).failing
      ∧ migrationFilePath (Tm.mk 2024 8 3 12 0 0) "add users"
          ∈ (FSState.mk [] [] []
              [migrationFilePath (Tm.mk 2024 8 3 12 0 0) "add users"]).failingWrite)
    ∧ ((FSState.mk []
          [(migrationFilePath (Tm.mk 2024 8 3 12 0 0) "add users", "old content")]
          [] []).failing = []
      ∧ (FSState.mk []
          [(migrationFilePath (Tm.mk 2024 8 3 12 0 0) "add users", "old content")]
          [] []).failingWrite = []
      ∧ (FSState.mk []
          [(migrationFilePath (Tm.mk 2024 8 3 12 0 0) "add users", "old content")]
          [] []).files.lookup (migrationFilePath (Tm.mk 2024 8 3 12 0 0) "add users")
          = some "old content")
    ∧ ((∃ e, (CreateMigrationFile (Tm.mk 2024 8 3 12 0 0) "add users"
          (FSState.mk [] [] ["./migrator/migrations"] [])).1 = Except.error e
        ∧ (CreateMigrationFile (Tm.mk 2024 8 3 12 0 0) "add users"
            (FSState.mk [] [] ["./migrator/migrations"] [])).2.1.files
          = (FSState.mk [] [] ["./migrator/migrations"] []).files)
      ∧ (∃ e, (CreateMigrationFile (Tm.mk 2024 8 3 12 0 0) "add users"
          (FSState.mk [] [] [migrationFilePath (Tm.mk 2024 8 3 12 0 0) "add users"]
            [])).1 = Except.error e
        ∧ (CreateMigrationFile (Tm.mk 2024 8 3 12 0 0) "add users"
            (FSState.mk [] [] [migrationFilePath (Tm.mk 2024 8 3 12 0 0) "add users"]
              [])).2.1.files
          = (FSState.mk [] [] [migrationFilePath (Tm.mk 2024 8 3 12 0 0) "add users"]
              []).files)
      ∧ (∃ e, (CreateMigrationFile (Tm.mk 2024 8 3 12 0 0) "add users"
          (FSState.mk [] [] [] [migrationFilePath (Tm.mk 2024 8 3 12 0 0)
            "add users"])).1 = Except.error e)
      ∧ (∃ e, (CreateTransactionMigrationFile (Tm.mk 2024 8 3 12 0 0) "add users"
          (FSState.mk [] [] [migrationFilePath (Tm.mk 2024 8 3 12 0 0) "add users"]
            [])).1 = Except.error e)
      ∧ ((CreateMigrationFile (Tm.mk 2024 8 3 12 0 0) "add users"
          (FSState.mk []
            [(migrationFilePath (Tm.mk 2024 8 3 12 0 0) "add users", "old content")]
            [] [])).1 = Except.ok ()
        ∧ (CreateMigrationFile (Tm.mk 2024 8 3 12 0 0) "add users"
            (FSState.mk []
              [(migrationFilePath (Tm.mk 2024 8 3 12 0 0) "add users", "old content")]
              [] [])).2.1.files.lookup
            (migrationFilePath (Tm.mk 2024 8 3 12 0 0) "add users")
          = some (sprintf1 migrationTemplate
              (formatTimestamp (Tm.mk 2024 8 3 12 0 0))))) :=
  ⟨by decide, ⟨by decide, by decide⟩, ⟨by decide, by decide, by decide⟩,
    ⟨rfl, rfl, rfl⟩,
    createMigrationFile_failure_modes (Tm.mk 2024 8 3 12 0 0) "add users"
      (FSState.mk [] [] ["./migrator/migrations"] [])
      (FSState.mk [] [] [migrationFilePath (Tm.mk 2024 8 3 12 0 0) "add users"] [])
      (FSState.mk [] [] [] [migrationFilePath (Tm.mk 2024 8 3 12 0 0) "add users"])
      (FSState.mk []
        [(migrationFilePath (Tm.mk 2024 8 3 12 0 0) "add users", "old content")]
        [] [])
      "old content"
      (by decide) ⟨by decide, by decide⟩ ⟨by decide, by decide, by decide⟩
      ⟨rfl, rfl, rfl⟩⟩

/-! ### The command dispatcher `Run` -/

/-- The way an invocation of `Run` ends: a normal return, or process death
through `log.Fatal`/`log.Fatalf` with the fatal message. -/
inductive Outcome where
  | normal
  | fatal (msg : String)
deriving DecidableEq

/-- Everything observable about one `Run` invocation: how it ended, the
final filesystem, the engine calls made, and the `log` lines printed
before the end. -/
structure RunResult (α : Type) where
  outcome : Outcome
  fs : FSState
  engineCalls : List (EngineCall α)
  logs : List String
deriving DecidableEq

/-- `Run` (`deadigations.go` lines 66-99): dispatches on `args[1]` (Go's
`os.Args` convention keeps the program name in `args[0]`).  `log.Fatal` and
`log.Fatalf` terminate the process, rendered as an `Outcome.fatal` result
carrying the message; `log.Println` lines are collected in `logs`. -/
def Run {α : Type} (m : MigrationTool) (registry : List (GormMigration α))
    (engine : EngineCall α → Option Err) (t : Tm) (args : List String)
    (fs : FSState) : RunResult α :=
  match args with
  | _ :: cmd :: rest =>
    if cmd = "-up" then
      match MigrateUp m registry engine with
      | (some err, calls, logs) =>
        ⟨Outcome.fatal ("Migration failed: " ++ err.msg), fs, calls, logs⟩
      | (none, calls, logs) => ⟨Outcome.normal, fs, calls, logs⟩
    else if cmd = "-down" then
      match MigrateDown m registry engine with
      | (some err, calls, logs) =>
        ⟨Outcome.fatal ("Rollback failed: " ++ err.msg), fs, calls, logs⟩
      | (none, calls, logs) => ⟨Outcome.normal, fs, calls, logs⟩
    else if cmd = "-create" then
      match rest with
      | [] => ⟨Outcome.fatal "Please provide a name for the migration", fs, [], []⟩
      | migrationName :: _ =>
        match CreateMigrationFile t migrationName fs with
        | (Except.error e, fs', logs) =>
          ⟨Outcome.fatal ("Failed to create migration file: " ++ e.msg), fs', [], logs⟩
        | (Except.ok _, fs', logs) => ⟨Outcome.normal, fs', [], logs⟩
    else if cmd = "-create-tx" then
      match rest with
      | [] =>
        ⟨Outcome.fatal "Please provide a name for the transaction migration", fs, [], []⟩
      | migrationName :: _ =>
        match CreateTransactionMigrationFile t migrationName fs with
        | (Except.error e, fs', logs) =>
          ⟨Outcome.fatal ("Failed to create transaction migration file: " ++ e.msg),
            fs', [], logs⟩
        | (Except.ok _, fs', logs) => ⟨Outcome.normal, fs', [], logs⟩
    else
      ⟨Outcome.fatal "Invalid command. Use -up, -down, -create, or -create-tx", fs, [], []⟩
  | _ =>
    ⟨Outcome.normal, fs,  [],
      ["No command provided. Use -up, -down, -create, or -create-tx"]⟩

/-- C7: `Run` invoked with the `-create` or `-create-tx` subcommand but no
name argument (fewer than three arguments) dies fatally with the usage
message, and the filesystem is exactly as before: no directory was created
and no file was written. -/
theorem run_create_missing_name {α : Type} (m : MigrationTool)
    (registry : List (GormMigration α)) (engine : EngineCall α → Option Err)
    (t : Tm) (prog : String) (fs : FSState) :
    Run m registry engine t [prog, "-create"] fs
      = ⟨Outcome.fatal "Please provide a name for the migration", fs, [], []⟩
    ∧ Run m registry engine t [prog, "-create-tx"] fs
      = ⟨Outcome.fatal "Please provide a name for the transaction migration",
          fs, [], []⟩ :=
  ⟨rfl, rfl⟩

/-- C10: `Run` with fewer than two arguments (no subcommand) only logs the
usage hint and returns normally — no process termination, no filesystem
change, no engine call — whereas `Run` with an unrecognized subcommand
terminates the process fatally with the invalid-command message. -/
theorem run_dispatch_default {α : Type} (m : MigrationTool)
    (registry : List (GormMigration α)) (engine : EngineCall α → Option Err)
    (t : Tm) (fs : FSState) (prog cmd : String) (rest : List String)
    (h : cmd ∉ (["-up", "-down", "-create", "-create-tx"] : List String)) :
    Run m registry engine t [] fs
      = ⟨Outcome.normal, fs, [],
          ["No command provided. Use -up, -down, -create, or -create-tx"]⟩
    ∧ Run m registry engine t [prog] fs
      = ⟨Outcome.normal, fs, [],
          ["No command provided. Use -up, -down, -create, or -create-tx"]⟩
    ∧ Run m registry engine t (prog :: cmd :: rest) fs
      = ⟨Outcome.fatal "Invalid command. Use -up, -down, -create, or -create-tx",
          fs, [], []⟩ := by
  simp only [List.mem_cons, List.not_mem_nil, or_false, not_or] at h
  obtain ⟨h₁, h₂, h₃, h₄⟩ := h
  refine ⟨rfl, rfl, ?_⟩
  simp only [Run]
  rw [if_neg h₁, if_neg h₂, if_neg h₃, if_neg h₄]

/-- C10 witness: the empty argument list, a bare program name, and the
unrecognized subcommand `"-bogus"`. -/
theorem run_dispatch_default_witness :
    ("-bogus" ∉ (["-up", "-down", "-create", "-create-tx"] : List String))
    ∧ (Run (NewMigrationTool "host=localhost" none).1 ([] : List (GormMigration Unit))
          (fun _ => none) (Tm.mk 2024 8 3 12 0 0) [] (FSState.mk [] [] [] [])
        = ⟨Outcome.normal, FSState.mk [] [] [] [], [],
            ["No command provided. Use -up, -down, -create, or -create-tx"]⟩
      ∧ Run (NewMigrationTool "host=localhost" none).1 ([] : List (GormMigration Unit))
          (fun _ => none) (Tm.mk 2024 8 3 12 0 0) ["migrator"] (FSState.mk [] [] [] [])
        = ⟨Outcome.normal, FSState.mk [] [] [] [], [],
            ["No command provided. Use -up, -down, -create, or -create-tx"]⟩
      ∧ Run (NewMigrationTool "host=localhost" none).1 ([] : List (GormMigration Unit))
          (fun _ => none) (Tm.mk 2024 8 3 12 0 0) ("migrator" :: "-bogus" :: [])
          (FSState.mk [] [] [] [])
        = ⟨Outcome.fatal "Invalid command. Use -up, -down, -create, or -create-tx",
            FSState.mk [] [] [] [], [], []⟩) :=
  ⟨by decide,
    run_dispatch_default (NewMigrationTool "host=localhost" none).1
      ([] : List (GormMigration Unit)) (fun _ => none) (Tm.mk 2024 8 3 12 0 0)
      (FSState.mk [] [] [] []) "migrator" "-bogus" [] (by decide)⟩

end Deadigations
